import Mathlib

/-!
Shallow embedding of the `crudexample` repository: a connection-handling
layer (`postgres_sql_connection.py`, class `PostgreSQLConnection`) and a
CRUD layer over the `users` table (`user_crud.py`, class `UserCRUD`).

The external relational engine is modelled by a `DBState` (the rows of the
`users` table plus the next SERIAL id) together with a `Behavior` oracle
that decides whether `engine.connect()` or `conn.execute(...)` raises a
`SQLAlchemyError`.  Every operation returns, besides its Python return
value, the final table state and the list of resource/driver events it
performed, so resource-discipline and transaction claims can be stated as
trace properties.
-/

namespace CrudExample

/-- A value bound to a named statement parameter (the entries of the
`params` dict passed to `conn.execute`). -/
inductive Value where
  | str (s : String)
  | int (n : Int)
  deriving DecidableEq, Repr

/-- A row of the `users` table: `id` (SERIAL PRIMARY KEY), `nombre`
(VARCHAR), `email` (VARCHAR), `edad` (INTEGER), as documented in the
`UserCRUD` docstring. -/
structure Row where
  id : Int
  nombre : String
  email : String
  edad : Int
  deriving DecidableEq, Repr

/-- The dictionary `\x7b'id': .., 'nombre': .., 'email': .., 'edad': ..\x7d`
that `read_user` / `read_all_users` build from a fetched row. -/
structure UserData where
  id : Int
  nombre : String
  email : String
  edad : Int
  deriving DecidableEq, Repr

/-- `read_user` / `read_all_users` convert a row to the result dictionary
column by column (`row[0] .. row[3]`). -/
def row_to_user_data (r : Row) : UserData :=
  ⟨r.id, r.nombre, r.email, r.edad⟩

/-- State of the external engine: the rows of the `users` table plus the
next engine-assigned SERIAL id. -/
structure DBState where
  rows : List Row
  nextId : Int
  deriving DecidableEq, Repr

/-- Resource and driver events an operation performs, in order. -/
inductive Event where
  | acquired
  | executed (sql : String)
  | committed
  | rolledBack
  | released
  deriving DecidableEq, Repr

/-- The `SQLAlchemyError` exceptions the layer can see. -/
inductive SQLError where
  | connectFailed
  | execFailed
  deriving DecidableEq, Repr

/-- Fault-injection oracle for one operation: the engine behaves normally,
`engine.connect()` raises, or `conn.execute` raises a `SQLAlchemyError`. -/
inductive Behavior where
  | ok
  | connectFail
  | execFail
  deriving DecidableEq, Repr

/-- Whether `engine.connect()` succeeds under this behavior. -/
def Behavior.connectOk : Behavior → Bool
  | Behavior.connectFail => false
  | _ => true

/-- Shallow embedding of `PostgreSQLConnection.get_connection`
(postgres_sql_connection.py): a context manager that obtains a connection,
yields it to the body, and on a `SQLAlchemyError` (or any exception) from
the body performs `connection.rollback()` and re-raises; `finally` it
always performs `connection.close()` when a connection was obtained.  If
`engine.connect()` itself fails, no connection exists, so nothing is
rolled back or closed and the error propagates.  The body is represented
by the events it emitted and its result (a value or the exception it
raised). -/
def get_connection {α : Type} (connectOk : Bool)
    (body : List Event × Except SQLError α) : List Event × Except SQLError α :=
  if connectOk then
    match body with
    | (evs, Except.ok a) =>
        (Event.acquired :: evs ++ [Event.released], Except.ok a)
    | (evs, Except.error e) =>
        (Event.acquired :: evs ++ [Event.rolledBack, Event.released],
         Except.error e)
  else
    ([], Except.error SQLError.connectFailed)

/-- The statement text of `create_user` (the `text(...)` literal in
user_crud.py, whitespace as in the triple-quoted source string). -/
def create_query_text : String :=
  "\n                    INSERT INTO users (nombre, email, edad) \n                    VALUES (:nombre, :email, :edad) \n                    RETURNING id\n                "

/-- The statement text of `read_user`. -/
def read_query_text : String :=
  "SELECT id, nombre, email, edad FROM users WHERE id = :user_id"

/-- The statement text of `read_all_users`. -/
def read_all_query_text : String :=
  "SELECT id, nombre, email, edad FROM users ORDER BY id"

/-- The statement text of `delete_user`. -/
def delete_query_text : String :=
  "DELETE FROM users WHERE id = :user_id"

/-- The liveness query issued by `test_connection`. -/
def version_query_text : String :=
  "SELECT version()"

/-- The `updates` list `update_user` builds dynamically: one
`"column = :param"` assignment for each argument that is not `None`,
appended in the source order nombre, email, edad. -/
def update_assignments (nombre email : Option String) (edad : Option Int) :
    List String :=
  (if nombre.isSome then ["nombre = :nombre"] else []) ++
  (if email.isSome then ["email = :email"] else []) ++
  (if edad.isSome then ["edad = :edad"] else [])

/-- The `params` dict `update_user` builds: `user_id` always, plus one
named binding per supplied argument. -/
def update_params (user_id : Int) (nombre email : Option String)
    (edad : Option Int) : List (String × Value) :=
  [("user_id", Value.int user_id)] ++
  (match nombre with
   | some v => [("nombre", Value.str v)]
   | none => []) ++
  (match email with
   | some v => [("email", Value.str v)]
   | none => []) ++
  (match edad with
   | some v => [("edad", Value.int v)]
   | none => [])

/-- The statement text `update_user` builds with the f-string
`UPDATE users SET <join of updates> WHERE id = :user_id` (whitespace as in
the triple-quoted source string). -/
def update_query_text (nombre email : Option String) (edad : Option Int) :
    String :=
  "\n                    UPDATE users \n                    SET " ++
    String.intercalate ", " (update_assignments nombre email edad) ++
    " \n                    WHERE id = :user_id\n                "

/-- Engine semantics of a single `"column = :param"` assignment applied to
one row, reading the bound value from the params dict. -/
def apply_assignment (params : List (String × Value)) (r : Row)
    (asg : String) : Row :=
  if asg = "nombre = :nombre" then
    match params.lookup "nombre" with
    | some (Value.str v) => { r with nombre := v }
    | _ => r
  else if asg = "email = :email" then
    match params.lookup "email" with
    | some (Value.str v) => { r with email := v }
    | _ => r
  else if asg = "edad = :edad" then
    match params.lookup "edad" with
    | some (Value.int v) => { r with edad := v }
    | _ => r
  else r

/-- Engine semantics of the built UPDATE statement: apply the assignment
list to every row matching the bound `user_id`; the reported rowcount is
the number of matching rows. -/
def run_update (st : DBState) (asgs : List String)
    (params : List (String × Value)) : DBState × Nat :=
  match params.lookup "user_id" with
  | some (Value.int uid) =>
      ({ st with
          rows := st.rows.map fun r =>
            if r.id = uid then asgs.foldl (apply_assignment params) r else r },
       (st.rows.filter fun r => decide (r.id = uid)).length)
  | _ => (st, 0)

/-- Engine semantics of the INSERT .. RETURNING id statement: append a row
with the next SERIAL id and return that id. -/
def run_insert (st : DBState) (nombre email : String) (edad : Int) :
    DBState × Int :=
  ({ rows := st.rows ++ [⟨st.nextId, nombre, email, edad⟩],
     nextId := st.nextId + 1 },
   st.nextId)

/-- Engine semantics of SELECT .. WHERE id = :user_id with `fetchone`:
the first matching row, if any. -/
def run_select_one (st : DBState) (uid : Int) : Option Row :=
  (st.rows.filter fun r => decide (r.id = uid)).head?

/-- Engine semantics of SELECT .. ORDER BY id: all rows sorted by
ascending id. -/
def run_select_all (st : DBState) : List Row :=
  st.rows.mergeSort fun a b => decide (a.id ≤ b.id)

/-- Engine semantics of DELETE .. WHERE id = :user_id: drop the matching
rows; the reported rowcount is the number of rows dropped. -/
def run_delete (st : DBState) (uid : Int) : DBState × Nat :=
  ({ st with rows := st.rows.filter fun r => !(decide (r.id = uid)) },
   (st.rows.filter fun r => decide (r.id = uid)).length)

/-- `UserCRUD.create_user` (user_crud.py): inside `get_connection`,
executes the parameterized INSERT, commits, and returns the id fetched
from RETURNING; `except SQLAlchemyError` returns `None`.  Result: the
Python return value, the final table state, and the event trace. -/
def create_user (beh : Behavior) (st : DBState) (nombre email : String)
    (edad : Int) : Option Int × DBState × List Event :=
  let body : List Event × Except SQLError (Int × DBState) :=
    match beh with
    | Behavior.execFail =>
        ([Event.executed create_query_text], Except.error SQLError.execFailed)
    | _ =>
        let res := run_insert st nombre email edad
        ([Event.executed create_query_text, Event.committed],
         Except.ok (res.2, res.1))
  match get_connection beh.connectOk body with
  | (trace, Except.ok (uid, st2)) => (some uid, st2, trace)
  | (trace, Except.error _) => (none, st, trace)

/-- `UserCRUD.read_user`: inside `get_connection`, executes the
parameterized SELECT, converts the fetched row (if any) to a dict and
returns it, else returns `None`; `except SQLAlchemyError` returns
`None`. -/
def read_user (beh : Behavior) (st : DBState) (user_id : Int) :
    Option UserData × List Event :=
  let body : List Event × Except SQLError (Option Row) :=
    match beh with
    | Behavior.execFail =>
        ([Event.executed read_query_text], Except.error SQLError.execFailed)
    | _ =>
        ([Event.executed read_query_text], Except.ok (run_select_one st user_id))
  match get_connection beh.connectOk body with
  | (trace, Except.ok r) => (r.map row_to_user_data, trace)
  | (trace, Except.error _) => (none, trace)

/-- `UserCRUD.read_all_users`: inside `get_connection`, executes the
SELECT .. ORDER BY id, accumulates every row into a list of dicts and
returns it; `except SQLAlchemyError` returns `[]`. -/
def read_all_users (beh : Behavior) (st : DBState) :
    List UserData × List Event :=
  let body : List Event × Except SQLError (List Row) :=
    match beh with
    | Behavior.execFail =>
        ([Event.executed read_all_query_text], Except.error SQLError.execFailed)
    | _ =>
        ([Event.executed read_all_query_text], Except.ok (run_select_all st))
  match get_connection beh.connectOk body with
  | (trace, Except.ok rows) => (rows.map row_to_user_data, trace)
  | (trace, Except.error _) => ([], trace)

/-- `UserCRUD.update_user`: builds `updates` and `params` from the
non-`None` arguments; if `updates` is empty, logs a warning and returns
`False` without touching the connection; otherwise, inside
`get_connection`, executes the built UPDATE, commits, and returns
`rowcount > 0`; `except SQLAlchemyError` returns `False`. -/
def update_user (beh : Behavior) (st : DBState) (user_id : Int)
    (nombre email : Option String) (edad : Option Int) :
    Bool × DBState × List Event :=
  let updates := update_assignments nombre email edad
  let params := update_params user_id nombre email edad
  if updates.isEmpty then
    (false, st, [])
  else
    let body : List Event × Except SQLError (Nat × DBState) :=
      match beh with
      | Behavior.execFail =>
          ([Event.executed (update_query_text nombre email edad)],
           Except.error SQLError.execFailed)
      | _ =>
          let res := run_update st updates params
          ([Event.executed (update_query_text nombre email edad),
            Event.committed],
           Except.ok (res.2, res.1))
    match get_connection beh.connectOk body with
    | (trace, Except.ok (n, st2)) => (decide (0 < n), st2, trace)
    | (trace, Except.error _) => (false, st, trace)

/-- `UserCRUD.delete_user`: inside `get_connection`, executes the
parameterized DELETE, commits, and returns `rowcount > 0`;
`except SQLAlchemyError` returns `False`. -/
def delete_user (beh : Behavior) (st : DBState) (user_id : Int) :
    Bool × DBState × List Event :=
  let body : List Event × Except SQLError (Nat × DBState) :=
    match beh with
    | Behavior.execFail =>
        ([Event.executed delete_query_text], Except.error SQLError.execFailed)
    | _ =>
        let res := run_delete st user_id
        ([Event.executed delete_query_text, Event.committed],
         Except.ok (res.2, res.1))
  match get_connection beh.connectOk body with
  | (trace, Except.ok (n, st2)) => (decide (0 < n), st2, trace)
  | (trace, Except.error _) => (false, st, trace)

/-- `PostgreSQLConnection.test_connection`: inside `get_connection`,
executes `SELECT version()` and returns `True`; any exception yields
`False`. -/
def test_connection (beh : Behavior) : Bool × List Event :=
  let body : List Event × Except SQLError Bool :=
    match beh with
    | Behavior.execFail =>
        ([Event.executed version_query_text], Except.error SQLError.execFailed)
    | _ =>
        ([Event.executed version_query_text], Except.ok true)
  match get_connection beh.connectOk body with
  | (trace, Except.ok _) => (true, trace)
  | (trace, Except.error _) => (false, trace)

/-! ## Helper lemmas -/

/-- The last element of `a :: l ++ [b]` is `b`. -/
theorem getLast_cons_concat {α : Type} (a b : α) (l : List α) :
    (a :: l ++ [b]).getLast? = some b :=
  List.getLast?_concat _

/-- The reported rowcount of a statement with `WHERE id = :user_id` is
positive exactly when some row carries that id. -/
theorem rowcount_pos_iff (rows : List Row) (uid : Int) :
    (decide (0 < (rows.filter fun r => decide (r.id = uid)).length) = true) ↔
      ∃ r ∈ rows, r.id = uid := by
  simp [List.length_pos_iff_exists_mem, List.mem_filter]

/-! ## Claims -/

/-- C1: for every call to `update_user` with a non-empty field set, the
generated UPDATE statement's assignment list contains exactly the fields
supplied as non-absent arguments, each bound by name in the params dict;
fields not supplied are absent from the statement, so executing the
statement leaves their stored values unchanged (in particular they are
never overwritten with a null). -/
theorem update_user_exact_fields (st : DBState) (user_id : Int)
    (nombre email : Option String) (edad : Option Int)
    (h : nombre.isSome ∨ email.isSome ∨ edad.isSome) :
    (("nombre = :nombre" ∈ update_assignments nombre email edad ↔ nombre.isSome) ∧
     ("email = :email" ∈ update_assignments nombre email edad ↔ email.isSome) ∧
     ("edad = :edad" ∈ update_assignments nombre email edad ↔ edad.isSome) ∧
     ∀ a ∈ update_assignments nombre email edad,
       a = "nombre = :nombre" ∨ a = "email = :email" ∨ a = "edad = :edad") ∧
    ((update_params user_id nombre email edad).lookup "nombre" =
        nombre.map Value.str ∧
     (update_params user_id nombre email edad).lookup "email" =
        email.map Value.str ∧
     (update_params user_id nombre email edad).lookup "edad" =
        edad.map Value.int ∧
     (update_params user_id nombre email edad).lookup "user_id" =
        some (Value.int user_id)) ∧
    (update_user Behavior.ok st user_id nombre email edad).2.1.rows =
      st.rows.map fun r =>
        if r.id = user_id then
          { r with
              nombre := nombre.getD r.nombre,
              email := email.getD r.email,
              edad := edad.getD r.edad }
        else r := by
  rcases nombre with _ | n <;> rcases email with _ | e <;> rcases edad with _ | a
  · simp at h
  all_goals exact ⟨by simp [update_assignments], ⟨rfl, rfl, rfl, rfl⟩, rfl⟩

/-- Witness for C1 at the concrete input of the spec's scenario:
`Update(2, \x7bage: 26\x7d)` on a one-row table. -/
theorem update_user_exact_fields_witness :
    ((none : Option String).isSome ∨ (none : Option String).isSome ∨
      (some (26 : Int)).isSome) ∧
    ((("nombre = :nombre" ∈ update_assignments none none (some 26) ↔
        (none : Option String).isSome) ∧
      ("email = :email" ∈ update_assignments none none (some 26) ↔
        (none : Option String).isSome) ∧
      ("edad = :edad" ∈ update_assignments none none (some 26) ↔
        (some (26 : Int)).isSome) ∧
      ∀ a ∈ update_assignments none none (some 26),
        a = "nombre = :nombre" ∨ a = "email = :email" ∨ a = "edad = :edad") ∧
     ((update_params 2 none none (some 26)).lookup "nombre" =
        (none : Option String).map Value.str ∧
      (update_params 2 none none (some 26)).lookup "email" =
        (none : Option String).map Value.str ∧
      (update_params 2 none none (some 26)).lookup "edad" =
        (some (26 : Int)).map Value.int ∧
      (update_params 2 none none (some 26)).lookup "user_id" =
        some (Value.int 2)) ∧
     (update_user Behavior.ok
        ⟨[⟨2, "María García", "maria@email.com", 25⟩], 3⟩ 2
        none none (some 26)).2.1.rows =
       [⟨2, "María García", "maria@email.com", 25⟩].map fun r =>
         if r.id = 2 then
           { r with
               nombre := (none : Option String).getD r.nombre,
               email := (none : Option String).getD r.email,
               edad := (some (26 : Int)).getD r.edad }
         else r) :=
  ⟨by decide,
   update_user_exact_fields ⟨[⟨2, "María García", "maria@email.com", 25⟩], 3⟩ 2
     none none (some 26) (by decide)⟩

/-- C2 counterexample: `update_user` with an empty field set does not fail
with any error value; it returns the perfectly ordinary value `False`
(the same value a no-match update returns), leaving state untouched. -/
theorem update_user_empty_fieldset_counterexample :
    update_user Behavior.ok ⟨[⟨1, "Juan Pérez", "juan@email.com", 30⟩], 2⟩ 1
        none none none =
      (false, ⟨[⟨1, "Juan Pérez", "juan@email.com", 30⟩], 2⟩, []) := rfl

/-- C2 amended: for every call to `update_user` in which the field set is
empty, the operation returns `False` (a silent no-op, not an
`InvalidArgument` failure) before touching the connection, performing no
engine round trip (empty event trace) and leaving the table unchanged. -/
theorem update_user_empty_fieldset_noop (beh : Behavior) (st : DBState)
    (user_id : Int) :
    update_user beh st user_id none none none = (false, st, []) := rfl

/-- C3: once a connection is acquired inside `get_connection`, it is
always released (`connection.close()` in the `finally` block) as the last
event before the operation returns or the error propagates, and any
failure after acquisition forces a `rollback` immediately before that
release. -/
theorem connection_release_discipline {α : Type} (c : Bool)
    (body : List Event × Except SQLError α)
    (hacq : Event.acquired ∈ (get_connection c body).1) :
    (get_connection c body).1.getLast? = some Event.released ∧
    ∀ e, (get_connection c body).2 = Except.error e →
      ∃ pre, (get_connection c body).1 =
        pre ++ [Event.rolledBack, Event.released] := by
  cases c with
  | false => simp [get_connection] at hacq
  | true =>
    obtain ⟨evs, res⟩ := body
    cases res with
    | ok a =>
      refine ⟨getLast_cons_concat _ _ _, fun e he => ?_⟩
      simp [get_connection] at he
    | error e0 =>
      refine ⟨?_, fun e _ => ⟨Event.acquired :: evs, rfl⟩⟩
      show ((Event.acquired :: evs) ++
        [Event.rolledBack, Event.released]).getLast? = some Event.released
      rw [List.getLast?_append]
      rfl

/-- Witness for C3: a failing body on an acquired connection. -/
theorem connection_release_discipline_witness :
    (get_connection true ([Event.executed version_query_text],
        (Except.error SQLError.execFailed : Except SQLError Bool))).1.getLast? =
      some Event.released ∧
    ∀ e, (get_connection true ([Event.executed version_query_text],
        (Except.error SQLError.execFailed : Except SQLError Bool))).2 =
          Except.error e →
      ∃ pre, (get_connection true ([Event.executed version_query_text],
        (Except.error SQLError.execFailed : Except SQLError Bool))).1 =
          pre ++ [Event.rolledBack, Event.released] :=
  connection_release_discipline true
    ([Event.executed version_query_text], Except.error SQLError.execFailed)
    (by decide)

/-- C4: for every id, `update_user` (with a non-empty field set) and
`delete_user` return `True` exactly when one or more rows matched the id
and `False` when zero rows matched; a nonexistent id yields `False` as a
successful return value, never an error. -/
theorem update_delete_matched_iff (st : DBState) (user_id : Int)
    (nombre email : Option String) (edad : Option Int)
    (h : nombre.isSome ∨ email.isSome ∨ edad.isSome) :
    ((update_user Behavior.ok st user_id nombre email edad).1 = true ↔
      ∃ r ∈ st.rows, r.id = user_id) ∧
    ((delete_user Behavior.ok st user_id).1 = true ↔
      ∃ r ∈ st.rows, r.id = user_id) := by
  have hdel : (delete_user Behavior.ok st user_id).1 =
      decide (0 < (st.rows.filter fun r => decide (r.id = user_id)).length) :=
    rfl
  have hupd : (update_user Behavior.ok st user_id nombre email edad).1 =
      decide (0 < (st.rows.filter fun r => decide (r.id = user_id)).length) := by
    rcases nombre with _ | n <;> rcases email with _ | e <;> rcases edad with _ | a
    · simp at h
    all_goals rfl
  rw [hupd, hdel]
  exact ⟨rowcount_pos_iff st.rows user_id, rowcount_pos_iff st.rows user_id⟩

/-- Witness for C4: updating/deleting id 7 on a table that has no row 7. -/
theorem update_delete_matched_iff_witness :
    ((none : Option String).isSome ∨ (none : Option String).isSome ∨
      (some (26 : Int)).isSome) ∧
    (((update_user Behavior.ok ⟨[⟨1, "Juan Pérez", "juan@email.com", 30⟩], 2⟩ 7
        none none (some 26)).1 = true ↔
      ∃ r ∈ [(⟨1, "Juan Pérez", "juan@email.com", 30⟩ : Row)], r.id = 7) ∧
     ((delete_user Behavior.ok ⟨[⟨1, "Juan Pérez", "juan@email.com", 30⟩], 2⟩
        7).1 = true ↔
      ∃ r ∈ [(⟨1, "Juan Pérez", "juan@email.com", 30⟩ : Row)], r.id = 7)) :=
  ⟨by decide,
   update_delete_matched_iff ⟨[⟨1, "Juan Pérez", "juan@email.com", 30⟩], 2⟩ 7
     none none (some 26) (by decide)⟩

/-- C5 counterexample: when statement execution fails, `create_user` does
not return an `ExecutionError` carrying the underlying cause — it returns
the bare `None` (the exception is only logged), as this concrete run
shows. -/
theorem create_user_no_error_value_counterexample :
    create_user Behavior.execFail ⟨[], 1⟩ "Juan Pérez" "juan@email.com" 30 =
      (none, ⟨[], 1⟩,
       [Event.acquired, Event.executed create_query_text,
        Event.rolledBack, Event.released]) := rfl

/-- C5 amended: for every call to `create_user` in which statement
execution fails, the operation returns `None` (the underlying cause is
logged, not carried in the return value), after the transaction has been
rolled back and the connection released, and it never partially commits:
no commit event occurs and the table state is unchanged. -/
theorem create_user_exec_failure_rolls_back (st : DBState)
    (nombre email : String) (edad : Int) :
    (create_user Behavior.execFail st nombre email edad).1 = none ∧
    (create_user Behavior.execFail st nombre email edad).2.1 = st ∧
    Event.committed ∉ (create_user Behavior.execFail st nombre email edad).2.2 ∧
    ∃ pre, (create_user Behavior.execFail st nombre email edad).2.2 =
      pre ++ [Event.rolledBack, Event.released] := by
  refine ⟨rfl, rfl, ?_,
    ⟨[Event.acquired, Event.executed create_query_text], rfl⟩⟩
  show Event.committed ∉
    [Event.acquired, Event.executed create_query_text,
     Event.rolledBack, Event.released]
  decide

/-- C6: `read_all_users` returns all records of the table as a fully
materialized list ordered by id ascending, and returns the empty list,
not an error, when the table is empty. -/
theorem read_all_users_ordered (st : DBState) :
    (read_all_users Behavior.ok st).1.Perm (st.rows.map row_to_user_data) ∧
    List.Pairwise (fun a b : UserData => a.id ≤ b.id)
      (read_all_users Behavior.ok st).1 ∧
    (st.rows = [] → (read_all_users Behavior.ok st).1 = []) := by
  have hres : (read_all_users Behavior.ok st).1 =
      (st.rows.mergeSort fun a b => decide (a.id ≤ b.id)).map
        row_to_user_data := rfl
  refine ⟨?_, ?_, ?_⟩
  · rw [hres]
    exact (List.mergeSort_perm st.rows _).map row_to_user_data
  · rw [hres, List.pairwise_map]
    have hs := @List.sorted_mergeSort Row
      (fun a b => decide (a.id ≤ b.id))
      (fun a b c hab hbc => by
        simp only [decide_eq_true_eq] at *
        omega)
      (fun a b => by
        simp only [Bool.or_eq_true, decide_eq_true_eq]
        omega)
      st.rows
    exact hs.imp fun hab => of_decide_eq_true hab
  · intro h
    rw [hres, h]
    simp

/-- Witness for C6: on an empty table, `read_all_users` returns `[]`. -/
theorem read_all_users_ordered_witness :
    (read_all_users Behavior.ok ⟨[], 5⟩).1 = [] :=
  (read_all_users_ordered ⟨[], 5⟩).2.2 rfl

/-- C7 counterexample: the not-found outcome of `read_user` is not
distinct from the error channel: a lookup on an empty table (no row) and
a failing execution on a table that does contain the row both return
exactly `None`. -/
theorem read_user_notfound_not_distinct_counterexample :
    (read_user Behavior.ok ⟨[], 1⟩ 5).1 = none ∧
    (read_user Behavior.execFail
      ⟨[⟨5, "Juan Pérez", "juan@email.com", 30⟩], 6⟩ 5).1 = none :=
  ⟨rfl, rfl⟩

/-- C7 amended: for every id, `read_user` maps the returned row to a
record dictionary when one exists, and returns `None` as a normal outcome
(no exception raised) when no row exists; however the execution-failure
path returns the same `None`, so the not-found outcome is not
distinguishable from an engine failure by the return value. -/
theorem read_user_maps_row (st : DBState) (user_id : Int) :
    (∀ r, run_select_one st user_id = some r →
      (read_user Behavior.ok st user_id).1 = some (row_to_user_data r)) ∧
    (run_select_one st user_id = none →
      (read_user Behavior.ok st user_id).1 = none) ∧
    (read_user Behavior.execFail st user_id).1 = none := by
  have hr : (read_user Behavior.ok st user_id).1 =
      (run_select_one st user_id).map row_to_user_data := rfl
  refine ⟨fun r h => ?_, fun h => ?_, rfl⟩
  · rw [hr, h]
    rfl
  · rw [hr, h]
    rfl

/-- Witness for C7 (amended): reading id 2 from a table holding row 2. -/
theorem read_user_maps_row_witness :
    run_select_one ⟨[⟨2, "María Fernández", "maria@email.com", 26⟩], 3⟩ 2 =
      some ⟨2, "María Fernández", "maria@email.com", 26⟩ ∧
    (read_user Behavior.ok
        ⟨[⟨2, "María Fernández", "maria@email.com", 26⟩], 3⟩ 2).1 =
      some (row_to_user_data ⟨2, "María Fernández", "maria@email.com", 26⟩) :=
  ⟨rfl,
   (read_user_maps_row ⟨[⟨2, "María Fernández", "maria@email.com", 26⟩], 3⟩
      2).1 ⟨2, "María Fernández", "maria@email.com", 26⟩ rfl⟩

/-- C8: `test_connection` acquires a connection, issues the liveness
query `SELECT version()`, releases the connection, and returns a plain
boolean: `True` exactly when everything succeeded, `False` on any failure
(connection or execution); no exception ever escapes, since the result is
a total boolean-valued function of the behavior. -/
theorem test_connection_probe (beh : Behavior) :
    ((test_connection beh).1 = true ↔ beh = Behavior.ok) ∧
    (Event.acquired ∈ (test_connection beh).2 →
      (test_connection beh).2.getLast? = some Event.released) ∧
    (beh = Behavior.ok → (test_connection beh).2 =
      [Event.acquired, Event.executed version_query_text, Event.released]) := by
  cases beh <;> decide

/-- Witness for C8: on the ok behavior the probe succeeds and releases. -/
theorem test_connection_probe_witness :
    Event.acquired ∈ (test_connection Behavior.ok).2 ∧
    (test_connection Behavior.ok).2.getLast? = some Event.released :=
  ⟨by decide, (test_connection_probe Behavior.ok).2.1 (by decide)⟩

/-- The dynamically built assignment list depends only on which arguments
are present, never on their values. -/
theorem update_assignments_presence (n n' e e' : Option String)
    (a a' : Option Int) (hn : n.isSome = n'.isSome)
    (he : e.isSome = e'.isSome) (ha : a.isSome = a'.isSome) :
    update_assignments n e a = update_assignments n' e' a' := by
  simp only [update_assignments, hn, he, ha]

/-- The event trace of a successful `update_user`, as a function of the
built assignment list. -/
theorem update_user_trace_ok (st : DBState) (uid : Int)
    (n e : Option String) (a : Option Int) :
    (update_user Behavior.ok st uid n e a).2.2 =
      if (update_assignments n e a).isEmpty then []
      else [Event.acquired, Event.executed (update_query_text n e a),
            Event.committed, Event.released] := by
  rcases n with _ | n <;> rcases e with _ | e <;> rcases a with _ | a <;> rfl

/-- C9: for every CRUD operation, the statement text sent to the engine
is independent of the supplied values: two calls with the same presence
pattern of supplied fields but arbitrary different values produce
identical event traces (hence identical executed statement texts); the
values travel only in the params dict (`update_params`), never in the
statement text. -/
theorem statement_text_value_independent
    (st st' : DBState) (uid uid' : Int)
    (n n' e e' : Option String) (a a' : Option Int)
    (nom nom' em em' : String) (ed ed' : Int)
    (hn : n.isSome = n'.isSome) (he : e.isSome = e'.isSome)
    (ha : a.isSome = a'.isSome) :
    (update_user Behavior.ok st uid n e a).2.2 =
      (update_user Behavior.ok st' uid' n' e' a').2.2 ∧
    (create_user Behavior.ok st nom em ed).2.2 =
      (create_user Behavior.ok st' nom' em' ed').2.2 ∧
    (read_user Behavior.ok st uid).2 = (read_user Behavior.ok st' uid').2 ∧
    (read_all_users Behavior.ok st).2 = (read_all_users Behavior.ok st').2 ∧
    (delete_user Behavior.ok st uid).2.2 =
      (delete_user Behavior.ok st' uid').2.2 := by
  have hasg := update_assignments_presence n n' e e' a a' hn he ha
  refine ⟨?_, rfl, rfl, rfl, rfl⟩
  rw [update_user_trace_ok, update_user_trace_ok]
  simp only [update_query_text, hasg]

/-- Witness for C9: same presence pattern, different values. -/
theorem statement_text_value_independent_witness :
    (update_user Behavior.ok ⟨[], 1⟩ 1 (some "a") none (some 1)).2.2 =
      (update_user Behavior.ok ⟨[], 9⟩ 2 (some "b") none (some 7)).2.2 :=
  (statement_text_value_independent ⟨[], 1⟩ ⟨[], 9⟩ 1 2 (some "a") (some "b")
    none none (some 1) (some 7) "x" "y" "p" "q" 3 4 rfl rfl rfl).1

/-- C10: every operation catches `SQLAlchemyError` and returns the same
value as its no-match or empty outcome — `create_user` and `read_user`
return `None`, `read_all_users` returns `[]`, `update_user` and
`delete_user` return `False` — so a caller cannot distinguish an
execution failure from a not-found or empty result by the return value
alone. -/
theorem exec_failure_indistinguishable (st : DBState) (user_id : Int)
    (nombre email : Option String) (edad : Option Int)
    (nom em : String) (ed : Int) :
    (create_user Behavior.execFail st nom em ed).1 = none ∧
    (read_user Behavior.execFail st user_id).1 = none ∧
    (read_all_users Behavior.execFail st).1 = [] ∧
    (update_user Behavior.execFail st user_id nombre email edad).1 = false ∧
    (delete_user Behavior.execFail st user_id).1 = false ∧
    (read_user Behavior.ok ⟨[], 1⟩ user_id).1 = none ∧
    (read_all_users Behavior.ok ⟨[], 1⟩).1 = [] ∧
    (update_user Behavior.ok ⟨[], 1⟩ user_id nombre email edad).1 = false ∧
    (delete_user Behavior.ok ⟨[], 1⟩ user_id).1 = false := by
  have h2 : (read_all_users Behavior.ok (⟨[], 1⟩ : DBState)).1 =
      (([] : List Row).mergeSort fun a b => decide (a.id ≤ b.id)).map
        row_to_user_data := rfl
  refine ⟨rfl, rfl, rfl, ?_, rfl, rfl, ?_, ?_, rfl⟩
  · rcases nombre with _ | n <;> rcases email with _ | e <;>
      rcases edad with _ | a <;> rfl
  · rw [h2]
    simp
  · rcases nombre with _ | n <;> rcases email with _ | e <;>
      rcases edad with _ | a <;> rfl

end CrudExample
